import Mathlib

/-!
Verification development for the mood-tracker application (`src/app.py`).

The core under specification consists of three Python functions:
`calculate_average_mood` (lines 363-382), `analyze_mood_patterns`
(lines 384-470) and `get_contextual_notification` (lines 472-600).
They are shallowly embedded below.  Numeric values (mood ordinals,
stress levels, sleep hours and their means) are modelled as rationals
`ℚ`; Python `float` arithmetic only ever compares these small sums and
quotients against thresholds that are far from the representable-error
scale, so exact rational arithmetic is a faithful model.  A Python
`dict` value that may be missing a key is modelled with `Option`, and a
spot where the Python code can raise an uncaught exception is modelled
by an `Option`/layered-`Option` result, `none` standing for the raise.
-/

attribute [local semireducible] Rat.add Rat.mul Rat.inv Rat.sub Rat.ofScientific

set_option maxRecDepth 4000

/-- The four categorical moods of `MOOD_OPTIONS` (lines 347-352). -/
inductive Mood
  | sad
  | neutral
  | good
  | great
deriving DecidableEq

/-- Embedding of `MOOD_OPTIONS[...]["value"]`: Sad=1, Neutral=2, Good=3, Great=4. -/
def Mood.value : Mood → ℚ
  | .sad => 1
  | .neutral => 2
  | .good => 3
  | .great => 4

/-- The emoji key of each mood in `MOOD_OPTIONS` (lines 347-352). -/
def Mood.emoji : Mood → String
  | .sad => "😞"
  | .neutral => "😐"
  | .good => "🙂"
  | .great => "😄"

/-- Lookup of `MOOD_OPTIONS[label]["value"]` keyed by the emoji string;
`none` models a label that is not a key of the dictionary. -/
def MOOD_OPTIONS_value : String → Option ℚ
  | "😞" => some 1
  | "😐" => some 2
  | "🙂" => some 3
  | "😄" => some 4
  | _ => none

/-- One mood-journal entry (the Python entry `dict`, lines 767-783).
`slots` lists the six `TIME_SLOTS` values in order; `none` models a
missing or empty (falsy) slot.  `average_mood` stores the emoji label
(possibly absent, possibly arbitrary — the analyzer looks it up
defensively).  `sleep`, `stress`, `activity`, `emotions` and `notes`
are `none` when the corresponding key is absent from the entry. -/
structure MoodEntry where
  date : String
  slots : List (Option Mood)
  average_mood : Option String
  sleep : Option ℚ
  stress : Option ℚ
  activity : Option String
  emotions : Option String
  notes : Option String
deriving DecidableEq

/-- Embedding of `MOOD_OPTIONS.get(m, {}).get('value', 0)` — the defensive mood
ordinal lookup used throughout `analyze_mood_patterns`
(lines 402, 407, 420, 461, 462). -/
def moodValD (m : Option String) : ℚ :=
  (m.bind MOOD_OPTIONS_value).getD 0

/-- Embedding of `calculate_average_mood` (lines 363-382): collect the ordinal
values of the filled time slots; `None` when no slot is filled,
otherwise bucket the arithmetic mean back to an emoji label. -/
def calculate_average_mood (entry : MoodEntry) : Option String :=
  let mood_values := entry.slots.filterMap (fun s => s.map Mood.value)
  if mood_values = [] then
    none
  else
    let avg_value := mood_values.sum / (mood_values.length : ℚ)
    if avg_value ≤ 1.5 then some "😞"
    else if avg_value ≤ 2.5 then some "😐"
    else if avg_value ≤ 3.5 then some "🙂"
    else some "😄"

/-- Spec-side bucketing (spec §4.1): mean `≤ 1.5 → Sad`,
`≤ 2.5 → Neutral`, `≤ 3.5 → Good`, else `Great`, with inclusive
upper bounds. -/
def bucketMood (mean : ℚ) : Mood :=
  if mean ≤ 1.5 then .sad
  else if mean ≤ 2.5 then .neutral
  else if mean ≤ 3.5 then .good
  else .great

/-- Spec-side `computeAverageMood` (spec §4.1, claim C1): `none` for no
filled slot, otherwise the bucket of the arithmetic mean of the filled
slots' ordinal values. -/
def computeAverageMood_spec (slots : List (Option Mood)) : Option Mood :=
  let vs := slots.filterMap (fun s => s.map Mood.value)
  if vs = [] then none
  else some (bucketMood (vs.sum / (vs.length : ℚ)))

/-- Python truthiness of an optional numeric field (`if e.get('sleep')`):
absent and `0` are falsy. -/
def truthyQ : Option ℚ → Bool
  | none => false
  | some q => q != 0

/-- Python truthiness of an optional text field (`if e.get('activity')`):
absent and the empty string are falsy. -/
def truthyS : Option String → Bool
  | none => false
  | some s => s != ""

/-- Lexicographic `≤` on character lists, by Unicode code point — the
order Python uses to compare the ISO date strings. -/
def charsLe : List Char → List Char → Bool
  | [], _ => true
  | _ :: _, [] => false
  | a :: as, b :: bs =>
      if a.val < b.val then true
      else if b.val < a.val then false
      else charsLe as bs

/-- Python string `≤` on date strings (lexicographic by code point). -/
def dateLe (a b : String) : Bool :=
  charsLe a.data b.data

/-- Stable insertion of an entry after all entries with a `≤` date.
Together with `sortedByDate` this models Python's stable
`sorted(entries, key=lambda x: x['date'])` (line 390): equal dates keep
their original relative order, and a stable sort by a key is unique, so
insertion sort and Timsort agree. -/
def insertByDate (e : MoodEntry) : List MoodEntry → List MoodEntry
  | [] => [e]
  | x :: xs => if dateLe x.date e.date then x :: insertByDate e xs else e :: x :: xs

/-- Embedding of `sorted(entries, key=lambda x: x['date'])` (line 390). -/
def sortedByDate (entries : List MoodEntry) : List MoodEntry :=
  entries.foldl (fun acc e => insertByDate e acc) []

/-- Python `l[-n:]`: the last `min n (length l)` elements. -/
def lastN (n : Nat) (l : List MoodEntry) : List MoodEntry :=
  l.drop (l.length - n)

/-- Embedding of `sorted_entries[-7:]` (line 391): the last-7-by-date window. -/
def recentEntries (entries : List MoodEntry) : List MoodEntry :=
  lastN 7 (sortedByDate entries)

/-- The `streak_info` sub-dict of the analysis (lines 413-416). -/
structure StreakInfo where
  good_mood_streak : Nat
  total_recent_entries : Nat
deriving DecidableEq

/-- The `trend_info` sub-dict of the analysis (lines 426-431). -/
structure TrendInfo where
  mood_trend : String
  stress_trend : String
  avg_recent_mood : ℚ
  avg_recent_stress : ℚ
deriving DecidableEq

/-- The `comparison` sub-dict of the analysis (lines 464-468). -/
structure Comparison where
  last_week_avg : ℚ
  this_week_avg : ℚ
  improvement : Bool
deriving DecidableEq

/-- The analysis dict built at lines 393-399 and filled in afterwards.
`trend_info = none` and `comparison = none` model the corresponding
sub-dicts being left as the empty dict `{}`. -/
structure Analysis where
  streak_info : StreakInfo
  trend_info : Option TrendInfo
  improvement_areas : List String
  strengths : List String
  comparison : Option Comparison
deriving DecidableEq

/-- The streak loop (lines 406-411): walk the given list (the recent
window already reversed to most-recent-first), counting entries with
mood ordinal `≥ 3` and stopping (`break`) at the first that is not. -/
def streakLoop : List MoodEntry → Nat
  | [] => 0
  | e :: rest =>
      if 3 ≤ moodValD e.average_mood then streakLoop rest + 1 else 0

/-- Embedding of `streak_info` (lines 401-416): the good-mood streak over
`reversed(recent_entries)` plus the size of the recent window. -/
def streakInfoOf (recent : List MoodEntry) : StreakInfo :=
  { good_mood_streak := streakLoop recent.reverse
    total_recent_entries := recent.length }

/-- The mood-trend word (line 423): `recent_moods[-1]` vs
`recent_moods[0]` by strict inequality. -/
def trend_label (firstv laterv : ℚ) : String :=
  if laterv > firstv then "improving"
  else if laterv < firstv then "declining"
  else "stable"

/-- The stress-trend word (line 424): `recent_stress[-1]` vs
`recent_stress[0]` by strict inequality. -/
def stress_label (firstv laterv : ℚ) : String :=
  if laterv > firstv then "increasing"
  else if laterv < firstv then "decreasing"
  else "stable"

/-- Embedding of `trend_info` (lines 419-431): only when the recent window has at
least 3 entries; compares and averages the last-3 subwindow's mood
ordinals (`e.get('average_mood')` looked up with default 0) and stress
levels (`e.get('stress', 3)`). -/
def trendInfoOf (recent : List MoodEntry) : Option TrendInfo :=
  if 3 ≤ recent.length then
    let recent3 := lastN 3 recent
    let recent_moods := recent3.map (fun e => moodValD e.average_mood)
    let recent_stress := recent3.map (fun e => e.stress.getD 3)
    some
      { mood_trend := trend_label (recent_moods.headD 0) (recent_moods.getLastD 0)
        stress_trend := stress_label (recent_stress.headD 0) (recent_stress.getLastD 0)
        avg_recent_mood := recent_moods.sum / (recent_moods.length : ℚ)
        avg_recent_stress := recent_stress.sum / (recent_stress.length : ℚ) }
  else none

/-- Embedding of `sleep_data` (line 434): the sleep values of the recent entries
whose `sleep` field is truthy (present and nonzero). -/
def sleepDataOf (recent : List MoodEntry) : List ℚ :=
  recent.filterMap (fun e => if truthyQ e.sleep then some (e.sleep.getD 0) else none)

/-- The sleep block (lines 434-440): `(strengths, improvement_areas)`
contributions — mean sleep `≥ 7.5` yields strength `good_sleep`,
else mean `< 6` yields improvement area `sleep`. -/
def sleepTagsOf (recent : List MoodEntry) : List String × List String :=
  let sleep_data := sleepDataOf recent
  if sleep_data = [] then ([], [])
  else
    let avg_sleep := sleep_data.sum / (sleep_data.length : ℚ)
    if 7.5 ≤ avg_sleep then (["good_sleep"], [])
    else if avg_sleep < 6 then ([], ["sleep"])
    else ([], [])

/-- The stress block (lines 443-449): `(strengths, improvement_areas)`
contributions — mean of `e.get('stress', 3)` over the recent window,
`≤ 2` yields strength `stress_management`, else `≥ 4` yields
improvement area `stress`. -/
def stressTagsOf (recent : List MoodEntry) : List String × List String :=
  let stress_data := recent.map (fun e => e.stress.getD 3)
  if stress_data = [] then ([], [])
  else
    let avg_stress := stress_data.sum / (stress_data.length : ℚ)
    if avg_stress ≤ 2 then (["stress_management"], [])
    else if 4 ≤ avg_stress then ([], ["stress"])
    else ([], [])

/-- The activity block (lines 452-454): at least 5 recent entries with
a truthy activity field yield strength `activity_tracking`. -/
def activityTagOf (recent : List MoodEntry) : List String :=
  let activities := recent.filterMap
    (fun e => if truthyS e.activity then some (e.activity.getD "") else none)
  if 5 ≤ activities.length then ["activity_tracking"] else []

/-- The `strengths` list in its append order (good_sleep, then
stress_management, then activity_tracking). -/
def strengthsOf (recent : List MoodEntry) : List String :=
  (sleepTagsOf recent).1 ++ (stressTagsOf recent).1 ++ activityTagOf recent

/-- The `improvement_areas` list in its append order (sleep, then
stress). -/
def improvementAreasOf (recent : List MoodEntry) : List String :=
  (sleepTagsOf recent).2 ++ (stressTagsOf recent).2

/-- Mean mood ordinal of a week window (lines 461-462). -/
def weekAvg (l : List MoodEntry) : ℚ :=
  (l.map (fun e => moodValD e.average_mood)).sum / (l.length : ℚ)

/-- Embedding of `sorted_entries[-14:-7]` for a history of at least 14 entries. -/
def lastWeekWindow (sorted : List MoodEntry) : List MoodEntry :=
  (lastN 14 sorted).take 7

/-- The week comparison (lines 457-468): only when the full sorted
history has at least 14 entries; compares the mean mood ordinal of
`sorted_entries[-14:-7]` against `sorted_entries[-7:]`. -/
def comparisonOf (sorted : List MoodEntry) : Option Comparison :=
  if 14 ≤ sorted.length then
    let last_week_avg := weekAvg (lastWeekWindow sorted)
    let this_week_avg := weekAvg (lastN 7 sorted)
    some
      { last_week_avg := last_week_avg
        this_week_avg := this_week_avg
        improvement := this_week_avg > last_week_avg }
  else none

/-- Embedding of `analyze_mood_patterns` (lines 384-470).  `none` models the bare
`{}` returned for fewer than 2 entries (line 387).  The `current_entry`
parameter is kept although its only use in the source (line 402,
`current_mood_value`) is dead: the value is never read afterwards. -/
def analyze_mood_patterns (entries : List MoodEntry) (current_entry : MoodEntry) :
    Option Analysis :=
  if entries.length < 2 then none
  else
    let sorted := sortedByDate entries
    let recent := lastN 7 sorted
    some
      { streak_info := streakInfoOf recent
        trend_info := trendInfoOf recent
        improvement_areas := improvementAreasOf recent
        strengths := strengthsOf recent
        comparison := comparisonOf sorted }

/-- The keys of the dict returned by `analyze_mood_patterns`: the empty
dict at line 387, or the five-key dict literal of lines 393-399 (no key
is ever added or removed afterwards; only the values are updated). -/
def resultKeys : Option Analysis → List String
  | none => []
  | some _ =>
      ["streak_info", "trend_info", "improvement_areas", "strengths", "comparison"]

/-- ASCII lowering of a string, modelling Python's `.lower()` on the
activity text (line 567); the keyword vocabulary it is matched against
is pure ASCII. -/
def strLower (s : String) : String :=
  String.mk (s.data.map Char.toLower)

/-- Whether `needle` is a prefix of `hay` (on character lists). -/
def charsPrefixOf : List Char → List Char → Bool
  | [], _ => true
  | _ :: _, [] => false
  | a :: as, b :: bs => a == b && charsPrefixOf as bs

/-- Whether `needle` occurs as a contiguous run inside `hay`. -/
def charsContains (needle : List Char) : List Char → Bool
  | [] => charsPrefixOf needle []
  | c :: cs => charsPrefixOf needle (c :: cs) || charsContains needle cs

/-- Python's `word in activity` substring test. -/
def strContains (hay needle : String) : Bool :=
  charsContains needle.data hay.data

/-- Python's `any(word in activity for word in words)` (lines 569-573). -/
def containsAny (hay : String) (words : List String) : Bool :=
  words.any (fun w => strContains hay w)

/-- One-decimal rendering of a rational, modelling the
`f"{improvement:.1f}"` format at line 531 (rounding to the nearest
tenth; the claims under verification do not depend on the tie-breaking
of the underlying float formatting). -/
def fmt1 (q : ℚ) : String :=
  let k : Int := round (q * 10)
  let ip := k / 10
  let fp := (k % 10).natAbs
  s!"{ip}.{fp}"

/-- Embedding of `analysis.get('streak_info', {}).get('good_mood_streak', 0)`
(lines 488, 500). -/
def streakD (analysis : Option Analysis) : Nat :=
  match analysis with
  | none => 0
  | some a => a.streak_info.good_mood_streak

/-- Embedding of `analysis.get('trend_info', {}).get('mood_trend')` (lines 494, 506,
522). -/
def moodTrendD (analysis : Option Analysis) : Option String :=
  match analysis with
  | none => none
  | some a => (a.trend_info).map TrendInfo.mood_trend

/-- Embedding of `analysis.get('trend_info', {}).get('stress_trend')` (line 524). -/
def stressTrendD (analysis : Option Analysis) : Option String :=
  match analysis with
  | none => none
  | some a => (a.trend_info).map TrendInfo.stress_trend

/-- Embedding of `analysis.get('strengths', ...)`-style access: the strengths list,
empty when the analysis is the empty dict. -/
def strengthsD (analysis : Option Analysis) : List String :=
  match analysis with
  | none => []
  | some a => a.strengths

/-- Embedding of `analysis.get('improvement_areas', [])` (line 577). -/
def improvementsD (analysis : Option Analysis) : List String :=
  match analysis with
  | none => []
  | some a => a.improvement_areas

/-- Embedding of `analysis.get('comparison', {})` (line 528). -/
def comparisonD (analysis : Option Analysis) : Option Comparison :=
  match analysis with
  | none => none
  | some a => a.comparison

/-- The opening clause (lines 487-509), keyed by the mood ordinal with
streak/trend context. -/
def opening_clause (mood_value : ℚ) (analysis : Option Analysis) : String :=
  if mood_value = 4 then
    if 3 ≤ streakD analysis then
      s!"🌟 That\x27s {streakD analysis} days of great vibes in a row! You\x27re on fire!"
    else
      "🌟 What an amazing day! Your positive energy is radiating!"
  else if mood_value = 3 then
    if moodTrendD analysis = some "improving" then
      "🌸 I love seeing your mood trending upward! You\x27re building momentum!"
    else
      "🌸 Solid good mood today! You\x27re handling life with grace!"
  else if mood_value = 2 then
    if 0 < streakD analysis then
      "💪 Taking a breather after some good days is totally normal. You\x27re staying balanced!"
    else
      "💪 Neutral can be exactly what you need right now. You\x27re finding your center!"
  else
    if moodTrendD analysis = some "improving" then
      "🌅 I know today was tough, but I can see you\x27re working through it. That takes real strength!"
    else
      "🌅 Tough days are part of the journey. You\x27re being brave by acknowledging how you feel!"

/-- The good-sleep strength clause (lines 512-514), inside the
`if analysis.get('strengths'):` guard. -/
def strength_sleep_clause (analysis : Option Analysis) : Option String :=
  if strengthsD analysis ≠ [] ∧ "good_sleep" ∈ strengthsD analysis then
    some "Your consistent good sleep is really paying off! 😴"
  else none

/-- The stress-management strength clause (lines 515-516). -/
def strength_stress_clause (analysis : Option Analysis) (stress_level : ℚ) :
    Option String :=
  if strengthsD analysis ≠ [] ∧ "stress_management" ∈ strengthsD analysis ∧
      stress_level ≤ 2 then
    some "Your stress management skills are genuinely impressive! 🧘‍♀️"
  else none

/-- The activity-tracking strength clause (lines 517-518). -/
def strength_activity_clause (analysis : Option Analysis) : Option String :=
  if strengthsD analysis ≠ [] ∧ "activity_tracking" ∈ strengthsD analysis then
    some "I admire how consistently you\x27re staying active! 🏃‍♀️"
  else none

/-- The trend-based encouragement clause (lines 521-525):
mood improving, else (elif) stress decreasing. -/
def trend_clause (analysis : Option Analysis) : Option String :=
  if moodTrendD analysis = some "improving" then
    some "The upward trend in your mood this week is real progress! 📈"
  else if stressTrendD analysis = some "decreasing" then
    some "You\x27re actually managing to reduce your stress levels - that\x27s no small feat! 📉"
  else none

/-- The week-comparison clause (lines 528-531), gated on the
`improvement` flag of a populated comparison sub-dict. -/
def comparison_clause (analysis : Option Analysis) : Option String :=
  match comparisonD analysis with
  | some c =>
      if c.improvement then
        let delta := fmt1 (c.this_week_avg - c.last_week_avg)
        some s!"You\x27re averaging {delta} points higher this week than last - genuine progress! 📊"
      else none
  | none => none

/-- The time-of-day clause (lines 534-556): exactly one of the four
daypart branches fires for any hour. -/
def daypart_clause (mood_value : ℚ) (hour : Nat) : String :=
  if 22 ≤ hour ∨ hour < 6 then
    if 3 ≤ mood_value then
      "Even at this late hour, your positive energy shines! 🌙"
    else if mood_value = 2 then
      "Late night reflection time - sometimes neutral is perfect for winding down! 🌛"
    else
      "Late nights can be tough, but you\x27re taking care of yourself by tracking! 🌜"
  else if 6 ≤ hour ∧ hour < 12 then
    if 3 ≤ mood_value then
      "Starting the day with good energy - that\x27s setting yourself up for success! 🌅"
    else
      "Morning check-ins help set the tone for the day! 🌄"
  else if 12 ≤ hour ∧ hour < 17 then
    if 3 ≤ mood_value then
      "Keeping positive energy through the day - fantastic! ☀️"
    else
      "Midday reflection shows great self-awareness! 🌞"
  else
    if 3 ≤ mood_value then
      "Ending the day on a positive note - beautiful! 🌇"
    else
      "Evening reflection is such a healthy habit! 🌆"

/-- The sleep-context clause (lines 559-564): only for a truthy
(present, nonzero) `sleep` on the current entry. -/
def sleep_context_clause (mood_value : ℚ) (current_entry : MoodEntry) :
    Option String :=
  match current_entry.sleep with
  | none => none
  | some sleepv =>
      if sleepv ≠ 0 then
        if 8 ≤ sleepv ∧ 3 ≤ mood_value then
          some s!"That {sleepv}-hour sleep is clearly working for you! 💤"
        else if sleepv < 6 ∧ mood_value ≤ 2 then
          some "Getting more sleep might help - your body and mind deserve that rest! 😴"
        else none
      else none

/-- The activity-keyword clause (lines 567-574): substring match of
the lowered activity text against three fixed vocabularies, first
matching category wins. -/
def activity_clause (current_entry : MoodEntry) : Option String :=
  let activity := strLower (current_entry.activity.getD "")
  if activity ≠ "" then
    if containsAny activity ["exercise", "walk", "run", "gym", "sport"] then
      some "That physical activity is such a mood booster! 💪"
    else if containsAny activity ["meditat", "yoga", "relax"] then
      some "Taking time for mindfulness - your mental health thanks you! 🧘‍♀️"
    else if containsAny activity ["friend", "social", "family"] then
      some "Social connection is such powerful medicine for the soul! 👥"
    else none
  else none

/-- The gentle-improvement clause (lines 577-581): the sleep suggestion
needs low mood; the stress suggestion (elif) needs the stress area and
high submitted stress. -/
def improvement_clause (mood_value stress_level : ℚ) (analysis : Option Analysis) :
    Option String :=
  if mood_value ≤ 2 ∧ "sleep" ∈ improvementsD analysis then
    some "Consider prioritizing sleep this week - it might be the game-changer you need! 🌙"
  else if "stress" ∈ improvementsD analysis ∧ 4 ≤ stress_level then
    some "High stress is tough. Maybe try one small stress-reducing activity tomorrow? 🌿"
  else none

/-- Embedding of `message_parts` as accumulated by lines 484-581: the opening first,
then every fired clause in source order. -/
def message_parts (mood_value stress_level : ℚ) (current_entry : MoodEntry)
    (all_entries : List MoodEntry) (hour : Nat) : List String :=
  let analysis := analyze_mood_patterns all_entries current_entry
  opening_clause mood_value analysis ::
    List.filterMap id
      [ strength_sleep_clause analysis
      , strength_stress_clause analysis stress_level
      , strength_activity_clause analysis
      , trend_clause analysis
      , comparison_clause analysis
      , some (daypart_clause mood_value hour)
      , sleep_context_clause mood_value current_entry
      , activity_clause current_entry
      , improvement_clause mood_value stress_level analysis ]

/-- The assembly of `final_message` (lines 584-589): one part stands
alone, two are joined by a space, and with three or more only the first
three are joined — later parts are dropped.  The `[]` case cannot be
reached from `get_contextual_notification` (the opening is always
appended); in Python it would fall into the `else` branch and raise. -/
def assembleParts : List String → String
  | [] => ""
  | [p0] => p0
  | [p0, p1] => p0 ++ " " ++ p1
  | p0 :: p1 :: p2 :: _ => p0 ++ " " ++ p1 ++ " " ++ p2

/-- The closing clause (lines 592-598), including its leading space. -/
def closing_clause (mood_value : ℚ) (total_entries : Nat) : String :=
  if 7 ≤ total_entries then
    s!" You\x27ve been tracking for {total_entries} days - that commitment to self-awareness is genuinely admirable! 🎯"
  else if 3 ≤ mood_value then
    " Keep nurturing that positive energy! ✨"
  else
    " Tomorrow is a fresh start, and you\x27ve got this! 🌱"

/-- Embedding of `get_contextual_notification` (lines 472-600).  The wall-clock hour
read at line 534 (`datetime.now().hour`) is passed explicitly; the
weekday flags computed at lines 479-481 are never read afterwards and
are omitted.  The result is `none` exactly when the direct dictionary
index `MOOD_OPTIONS[average_mood]["value"]` at line 474 raises
`KeyError`, i.e. when `average_mood` is absent or not one of the four
emoji labels. -/
def get_contextual_notification (average_mood : Option String)
    (stress_level : ℚ) (current_entry : MoodEntry)
    (all_entries : List MoodEntry) (hour : Nat) : Option String :=
  match average_mood.bind MOOD_OPTIONS_value with
  | none => none
  | some mood_value =>
      some (assembleParts
              (message_parts mood_value stress_level current_entry all_entries hour)
            ++ closing_clause mood_value all_entries.length)

/-- Space-joined concatenation of a list of clauses. -/
def joinSpace : List String → String
  | [] => ""
  | [p] => p
  | p :: rest => p ++ " " ++ joinSpace rest

/-- Modelled from the spec (claim C3): the notification the spec
describes, keeping the opening clause plus at most the first **3**
clauses that follow it (four parts in total) before the closing
clause.  Everything except the cap is shared with the source
embedding. -/
def claim_notification (average_mood : Option String) (stress_level : ℚ)
    (current_entry : MoodEntry) (all_entries : List MoodEntry) (hour : Nat) :
    Option String :=
  match average_mood.bind MOOD_OPTIONS_value with
  | none => none
  | some mood_value =>
      some (joinSpace
              ((message_parts mood_value stress_level current_entry all_entries hour).take 4)
            ++ closing_clause mood_value all_entries.length)

/-- Guarded rational division: `none` models Python's
`ZeroDivisionError`. -/
def divOpt (a b : ℚ) : Option ℚ :=
  if b = 0 then none else some (a / b)

/-- Exception-explicit variant of the trend block (lines 419-431): the
two mean computations are the only operations there that Python could
fail on (division by zero). -/
def trendInfoChecked (recent : List MoodEntry) : Option (Option TrendInfo) :=
  if 3 ≤ recent.length then
    let recent3 := lastN 3 recent
    let recent_moods := recent3.map (fun e => moodValD e.average_mood)
    let recent_stress := recent3.map (fun e => e.stress.getD 3)
    do
      let am ← divOpt recent_moods.sum (recent_moods.length : ℚ)
      let astr ← divOpt recent_stress.sum (recent_stress.length : ℚ)
      pure (some
        { mood_trend := trend_label (recent_moods.headD 0) (recent_moods.getLastD 0)
          stress_trend := stress_label (recent_stress.headD 0) (recent_stress.getLastD 0)
          avg_recent_mood := am
          avg_recent_stress := astr })
  else pure none

/-- Exception-explicit variant of the sleep block (lines 434-440). -/
def sleepTagsChecked (recent : List MoodEntry) : Option (List String × List String) :=
  let sleep_data := sleepDataOf recent
  if sleep_data = [] then pure ([], [])
  else do
    let avg_sleep ← divOpt sleep_data.sum (sleep_data.length : ℚ)
    pure (if 7.5 ≤ avg_sleep then (["good_sleep"], [])
          else if avg_sleep < 6 then ([], ["sleep"])
          else ([], []))

/-- Exception-explicit variant of the stress block (lines 443-449). -/
def stressTagsChecked (recent : List MoodEntry) : Option (List String × List String) :=
  let stress_data := recent.map (fun e => e.stress.getD 3)
  if stress_data = [] then pure ([], [])
  else do
    let avg_stress ← divOpt stress_data.sum (stress_data.length : ℚ)
    pure (if avg_stress ≤ 2 then (["stress_management"], [])
          else if 4 ≤ avg_stress then ([], ["stress"])
          else ([], []))

/-- Exception-explicit variant of the week comparison (lines 457-468). -/
def comparisonChecked (sorted : List MoodEntry) : Option (Option Comparison) :=
  if 14 ≤ sorted.length then
    let last_week := lastWeekWindow sorted
    let this_week := lastN 7 sorted
    do
      let last_week_avg ← divOpt
        ((last_week.map (fun e => moodValD e.average_mood)).sum) (last_week.length : ℚ)
      let this_week_avg ← divOpt
        ((this_week.map (fun e => moodValD e.average_mood)).sum) (this_week.length : ℚ)
      pure (some
        { last_week_avg := last_week_avg
          this_week_avg := this_week_avg
          improvement := this_week_avg > last_week_avg })
  else pure none

/-- Exception-explicit variant of `analyze_mood_patterns`: every field
access already falls back to a default in the source, so the only
possible uncaught exceptions are divisions by zero, made explicit here;
the outer `none` models a raise. -/
def analyze_checked (entries : List MoodEntry) (current_entry : MoodEntry) :
    Option (Option Analysis) :=
  if entries.length < 2 then pure none
  else
    let sorted := sortedByDate entries
    let recent := lastN 7 sorted
    do
      let t ← trendInfoChecked recent
      let sl ← sleepTagsChecked recent
      let stx ← stressTagsChecked recent
      let cmp ← comparisonChecked sorted
      pure (some
        { streak_info := streakInfoOf recent
          trend_info := t
          improvement_areas := sl.2 ++ stx.2
          strengths := sl.1 ++ stx.1 ++ activityTagOf recent
          comparison := cmp })

/-- Entry constructor for concrete test histories: date, average mood
label, sleep, stress and activity; no time-slot moods, emotions or
notes. -/
def mkEntry (d : String) (am : Option String) (sleepv : Option ℚ)
    (stressv : Option ℚ) (act : Option String) : MoodEntry :=
  { date := d, slots := [], average_mood := am, sleep := sleepv,
    stress := stressv, activity := act, emotions := none, notes := none }

/-- An entirely empty entry. -/
def emptyEntry : MoodEntry :=
  mkEntry "" none none none none

/-- Five-day history where every strength fires: all sleep 8, stress 1,
activity logged, sad average moods. -/
def hist5 : List MoodEntry :=
  [ mkEntry "2024-01-01" (some "😞") (some 8) (some 1) (some "x")
  , mkEntry "2024-01-02" (some "😞") (some 8) (some 1) (some "x")
  , mkEntry "2024-01-03" (some "😞") (some 8) (some 1) (some "x")
  , mkEntry "2024-01-04" (some "😞") (some 8) (some 1) (some "x")
  , mkEntry "2024-01-05" (some "😞") (some 8) (some 1) (some "x") ]

/-- The most recent entry of `hist5`. -/
def cur5 : MoodEntry :=
  mkEntry "2024-01-05" (some "😞") (some 8) (some 1) (some "x")

/-- A history of exactly 13 entries. -/
def hist13 : List MoodEntry :=
  (List.range 13).map
    (fun i => mkEntry (String.append "2024-01-" (toString (i + 10))) (some "🙂") none none none)

/-- The most recent entry of `hist13`. -/
def cur13 : MoodEntry :=
  mkEntry "2024-01-22" (some "🙂") none none none

/-- Six-day history whose average moods are, oldest to newest:
Good, Great, Sad, Great, Great, Great. -/
def hist6 : List MoodEntry :=
  [ mkEntry "2024-01-01" (some "🙂") none none none
  , mkEntry "2024-01-02" (some "😄") none none none
  , mkEntry "2024-01-03" (some "😞") none none none
  , mkEntry "2024-01-04" (some "😄") none none none
  , mkEntry "2024-01-05" (some "😄") none none none
  , mkEntry "2024-01-06" (some "😄") none none none ]

/-- A single-entry history. -/
def hist1 : List MoodEntry :=
  [mkEntry "2024-01-01" (some "🙂") none none none]

/-- The three entries of the increasing-mood history. -/
def e31 : MoodEntry := mkEntry "2024-01-01" (some "😐") none none none

/-- Second entry of the increasing-mood history. -/
def e32 : MoodEntry := mkEntry "2024-01-02" (some "🙂") none none none

/-- Third entry of the increasing-mood history. -/
def e33 : MoodEntry := mkEntry "2024-01-03" (some "😄") none none none

/-- Three-day history with ordinal moods 2, 3, 4 and no stress data. -/
def hist3 : List MoodEntry := [e31, e32, e33]

/-- Two-day history where sleep is absent or zero everywhere. -/
def hist2zero : List MoodEntry :=
  [ mkEntry "2024-01-01" (some "🙂") none (some 2) none
  , mkEntry "2024-01-02" (some "🙂") (some 0) (some 2) none ]

/-- The most recent entry of `hist2zero` (sleep logged as 0). -/
def cur2zero : MoodEntry :=
  mkEntry "2024-01-02" (some "🙂") (some 0) (some 2) none

theorem length_insertByDate (e : MoodEntry) (l : List MoodEntry) :
    (insertByDate e l).length = l.length + 1 := by
  induction l with
  | nil => rfl
  | cons x xs ih =>
      simp only [insertByDate]
      split <;> simp [ih]

theorem mem_insertByDate (a e : MoodEntry) (l : List MoodEntry) :
    a ∈ insertByDate e l ↔ a = e ∨ a ∈ l := by
  induction l with
  | nil => simp [insertByDate]
  | cons x xs ih =>
      simp only [insertByDate]
      split
      · simp only [List.mem_cons, ih]
        tauto
      · simp only [List.mem_cons]

theorem length_foldl_insert (l : List MoodEntry) :
    ∀ acc : List MoodEntry,
      (l.foldl (fun acc e => insertByDate e acc) acc).length = acc.length + l.length := by
  induction l with
  | nil => intro acc; simp
  | cons x xs ih =>
      intro acc
      simp only [List.foldl_cons]
      rw [ih (insertByDate x acc), length_insertByDate]
      simp only [List.length_cons]
      omega

theorem length_sortedByDate (l : List MoodEntry) :
    (sortedByDate l).length = l.length := by
  have := length_foldl_insert l []
  simpa [sortedByDate] using this

theorem mem_foldl_insert (a : MoodEntry) (l : List MoodEntry) :
    ∀ acc : List MoodEntry,
      a ∈ l.foldl (fun acc e => insertByDate e acc) acc ↔ a ∈ acc ∨ a ∈ l := by
  induction l with
  | nil => intro acc; simp
  | cons x xs ih =>
      intro acc
      simp only [List.foldl_cons]
      rw [ih (insertByDate x acc), mem_insertByDate]
      simp
      tauto

theorem mem_sortedByDate (a : MoodEntry) (l : List MoodEntry) :
    a ∈ sortedByDate l ↔ a ∈ l := by
  have := mem_foldl_insert a l []
  simpa [sortedByDate] using this

theorem length_lastN (n : Nat) (l : List MoodEntry) :
    (lastN n l).length = min n l.length := by
  simp only [lastN, List.length_drop]
  omega

theorem mem_lastN (a : MoodEntry) (n : Nat) (l : List MoodEntry)
    (h : a ∈ lastN n l) : a ∈ l :=
  List.drop_subset _ _ h

theorem length_recentEntries (entries : List MoodEntry) :
    (recentEntries entries).length = min 7 entries.length := by
  rw [recentEntries, length_lastN, length_sortedByDate]

theorem mem_recentEntries (a : MoodEntry) (entries : List MoodEntry)
    (h : a ∈ recentEntries entries) : a ∈ entries :=
  (mem_sortedByDate a entries).1 (mem_lastN a 7 (sortedByDate entries) h)

theorem streakLoop_eq_takeWhile (l : List MoodEntry) :
    streakLoop l =
      (l.takeWhile (fun e => 3 ≤ moodValD e.average_mood)).length := by
  induction l with
  | nil => rfl
  | cons e rest ih =>
      simp only [streakLoop, List.takeWhile_cons]
      by_cases h : 3 ≤ moodValD e.average_mood
      · simp [h, ih]
      · simp [h]

theorem sum_const_of_mem (l : List ℚ) (c : ℚ) (h : ∀ x ∈ l, x = c) :
    l.sum = l.length * c := by
  induction l with
  | nil => simp
  | cons x xs ih =>
      have hx : x = c := h x (by simp)
      have hxs : ∀ y ∈ xs, y = c := fun y hy => h y (by simp [hy])
      simp [hx, ih hxs]
      ring

theorem headD_const (l : List ℚ) (c d : ℚ) (h : ∀ x ∈ l, x = c) (hne : l ≠ []) :
    l.headD d = c := by
  cases l with
  | nil => exact absurd rfl hne
  | cons x xs => exact h x (by simp)

theorem getLastD_const (l : List ℚ) (c d : ℚ) (h : ∀ x ∈ l, x = c) (hne : l ≠ []) :
    l.getLastD d = c := by
  induction l generalizing d with
  | nil => exact absurd rfl hne
  | cons x xs ih =>
      rw [List.getLastD_cons]
      cases xs with
      | nil => exact h x (by simp)
      | cons y ys =>
          exact ih x (fun z hz => h z (List.mem_cons_of_mem _ hz)) (by simp)

theorem assembleParts_take (p : String) (ps : List String) :
    assembleParts (p :: ps) = joinSpace ((p :: ps).take 3) := by
  match ps with
  | [] => rfl
  | [_] => rfl
  | q :: r :: rest =>
      simp [assembleParts, joinSpace, String.append_assoc]

theorem divOpt_of_ne (a b : ℚ) (hb : b ≠ 0) : divOpt a b = some (a / b) := by
  simp [divOpt, hb]

theorem trendInfoChecked_eq (recent : List MoodEntry) :
    trendInfoChecked recent = some (trendInfoOf recent) := by
  unfold trendInfoChecked trendInfoOf
  dsimp only
  split
  · have h3 : (lastN 3 recent).length = 3 := by
      rw [length_lastN]; omega
    have hm : ((lastN 3 recent).map (fun e => moodValD e.average_mood)).length = 3 := by
      rw [List.length_map, h3]
    have hs : ((lastN 3 recent).map (fun e => e.stress.getD 3)).length = 3 := by
      rw [List.length_map, h3]
    rw [divOpt_of_ne _ _ (by rw [hm]; norm_num), divOpt_of_ne _ _ (by rw [hs]; norm_num)]
    rfl
  · rfl

theorem sleepTagsChecked_eq (recent : List MoodEntry) :
    sleepTagsChecked recent = some (sleepTagsOf recent) := by
  unfold sleepTagsChecked sleepTagsOf
  dsimp only
  split
  · rfl
  · rename_i hne
    have hlen : (sleepDataOf recent).length ≠ 0 := by
      intro h
      exact hne (List.length_eq_zero.mp h)
    rw [divOpt_of_ne _ _ (Nat.cast_ne_zero.mpr hlen)]
    rfl

theorem stressTagsChecked_eq (recent : List MoodEntry) :
    stressTagsChecked recent = some (stressTagsOf recent) := by
  unfold stressTagsChecked stressTagsOf
  dsimp only
  split
  · rfl
  · rename_i hne
    have hlen : (recent.map (fun e => e.stress.getD 3)).length ≠ 0 := by
      intro h
      exact hne (List.length_eq_zero.mp h)
    rw [divOpt_of_ne _ _ (Nat.cast_ne_zero.mpr hlen)]
    rfl

theorem comparisonChecked_eq (sorted : List MoodEntry) :
    comparisonChecked sorted = some (comparisonOf sorted) := by
  unfold comparisonChecked comparisonOf
  dsimp only
  split
  · rename_i h14
    have hlw : (lastWeekWindow sorted).length = 7 := by
      rw [lastWeekWindow, List.length_take, length_lastN]
      omega
    have htw : (lastN 7 sorted).length = 7 := by
      rw [length_lastN]; omega
    rw [divOpt_of_ne _ _ (by rw [hlw]; norm_num), divOpt_of_ne _ _ (by rw [htw]; norm_num)]
    rfl
  · rfl

theorem analyze_checked_eq (entries : List MoodEntry) (current : MoodEntry) :
    analyze_checked entries current = some (analyze_mood_patterns entries current) := by
  unfold analyze_checked analyze_mood_patterns
  dsimp only
  split
  · rfl
  · rw [trendInfoChecked_eq, sleepTagsChecked_eq, stressTagsChecked_eq, comparisonChecked_eq]
    rfl

theorem analyze_some (entries : List MoodEntry) (current : MoodEntry)
    (h : 2 ≤ entries.length) :
    analyze_mood_patterns entries current = some
      { streak_info := streakInfoOf (recentEntries entries)
        trend_info := trendInfoOf (recentEntries entries)
        improvement_areas := improvementAreasOf (recentEntries entries)
        strengths := strengthsOf (recentEntries entries)
        comparison := comparisonOf (sortedByDate entries) } := by
  unfold analyze_mood_patterns recentEntries
  rw [if_neg (by omega)]

theorem sleepTags_fst_cases (recent : List MoodEntry) :
    (sleepTagsOf recent).1 = [] ∨ (sleepTagsOf recent).1 = ["good_sleep"] := by
  unfold sleepTagsOf
  dsimp only
  split_ifs <;> simp

theorem sleepTags_snd_cases (recent : List MoodEntry) :
    (sleepTagsOf recent).2 = [] ∨ (sleepTagsOf recent).2 = ["sleep"] := by
  unfold sleepTagsOf
  dsimp only
  split_ifs <;> simp

theorem stressTags_fst_cases (recent : List MoodEntry) :
    (stressTagsOf recent).1 = [] ∨ (stressTagsOf recent).1 = ["stress_management"] := by
  unfold stressTagsOf
  dsimp only
  split_ifs <;> simp

theorem stressTags_snd_cases (recent : List MoodEntry) :
    (stressTagsOf recent).2 = [] ∨ (stressTagsOf recent).2 = ["stress"] := by
  unfold stressTagsOf
  dsimp only
  split_ifs <;> simp

theorem activityTag_cases (recent : List MoodEntry) :
    activityTagOf recent = [] ∨ activityTagOf recent = ["activity_tracking"] := by
  unfold activityTagOf
  dsimp only
  split_ifs <;> simp

theorem assembleParts_message (mv s : ℚ) (e : MoodEntry) (hist : List MoodEntry)
    (hr : Nat) :
    assembleParts (message_parts mv s e hist hr) =
      joinSpace ((message_parts mv s e hist hr).take 3) := by
  unfold message_parts
  exact assembleParts_take _ _

/-- C1: for every slot-mood mapping with at least one filled slot,
`calculate_average_mood` returns the category obtained by taking the
arithmetic mean of the filled slots' ordinal values (Sad=1, Neutral=2,
Good=3, Great=4) and bucketing with inclusive upper bounds
(`≤ 1.5 → Sad`, `≤ 2.5 → Neutral`, `≤ 3.5 → Good`, else `Great`); for
the mapping with no filled slot it returns `None`. -/
theorem computeAverageMood_matches_spec (e : MoodEntry) :
    calculate_average_mood e = (computeAverageMood_spec e.slots).map Mood.emoji := by
  unfold calculate_average_mood computeAverageMood_spec bucketMood
  dsimp only
  split_ifs <;> rfl

/-- C2 counterexample: `get_contextual_notification` invoked with an
absent `average_mood` label raises `KeyError` at the direct index
`MOOD_OPTIONS[average_mood]` (line 474), modelled by the `none`
result — contradicting the claim that the analyzer's operations never
raise for an unrecognized or absent `average_mood` label. -/
theorem notification_raises_on_absent_mood :
    get_contextual_notification none 1 emptyEntry [] 10 = none := rfl

/-- C2 (amended): `analyze_mood_patterns` itself never raises — every
field lookup falls back to a default (mood ordinal 0, stress 3, sleep
absent) and every division has a nonzero divisor, witnessed by the
exception-explicit `analyze_checked` always returning its result; and
`get_contextual_notification` never raises provided its `average_mood`
argument is one of the four recognized labels (its direct
`MOOD_OPTIONS[average_mood]` index is the one raise point). -/
theorem analyzer_never_raises (entries : List MoodEntry) (current : MoodEntry)
    (am : String) (v stress : ℚ) (e : MoodEntry) (hist : List MoodEntry)
    (hr : Nat) (hv : MOOD_OPTIONS_value am = some v) :
    analyze_checked entries current = some (analyze_mood_patterns entries current) ∧
    (get_contextual_notification (some am) stress e hist hr).isSome = true := by
  refine ⟨analyze_checked_eq entries current, ?_⟩
  unfold get_contextual_notification
  simp [hv]

/-- Witness for the amended C2 at a concrete history and the
recognized label Great. -/
theorem analyzer_never_raises_witness :
    analyze_checked hist5 cur5 = some (analyze_mood_patterns hist5 cur5) ∧
    (get_contextual_notification (some "😄") 1 cur5 hist5 13).isSome = true :=
  analyzer_never_raises hist5 cur5 "😄" 4 1 cur5 hist5 13 rfl

/-- C6: a history of fewer than 2 entries makes `analyze_mood_patterns`
return the empty dict (no sub-maps, no keys at all) — a valid degraded
output, not an error. -/
theorem insufficient_history_empty (entries : List MoodEntry) (current : MoodEntry)
    (h : entries.length < 2) :
    analyze_mood_patterns entries current = none ∧
    resultKeys (analyze_mood_patterns entries current) = [] := by
  have hnone : analyze_mood_patterns entries current = none := by
    unfold analyze_mood_patterns
    rw [if_pos h]
  exact ⟨hnone, by rw [hnone]; rfl⟩

/-- Witness for C6 on a single-entry history. -/
theorem insufficient_history_empty_witness :
    analyze_mood_patterns hist1 emptyEntry = none ∧
    resultKeys (analyze_mood_patterns hist1 emptyEntry) = [] :=
  insufficient_history_empty hist1 emptyEntry (by decide)

/-- C8: `analyze_mood_patterns`, `calculate_average_mood` and
`get_contextual_notification` are deterministic pure functions of their
arguments (the wall-clock hour being an explicit argument of the
notification builder): two calls on identical inputs give identical
results, with no hidden state between calls. -/
theorem core_functions_deterministic (entries : List MoodEntry)
    (current e : MoodEntry) (am : Option String) (s : ℚ) (hr : Nat) :
    analyze_mood_patterns entries current = analyze_mood_patterns entries current ∧
    calculate_average_mood e = calculate_average_mood e ∧
    get_contextual_notification am s e entries hr =
      get_contextual_notification am s e entries hr :=
  ⟨rfl, rfl, rfl⟩

/-- C3 counterexample: at a concrete input that accumulates six
message parts, the notification the code returns (the opening plus the
first **2** clauses after it, lines 583-589) differs from the claimed
one (the opening plus the first 3 clauses after it): the code silently
drops the activity-tracking clause that the claim would keep. -/
theorem notification_cap_counterexample :
    get_contextual_notification (some "😄") 1 cur5 hist5 13 ≠
      claim_notification (some "😄") 1 cur5 hist5 13 := by
  decide

/-- C3 (amended): for every input with a recognized `average_mood`
label, the returned string concatenates with single spaces at most the
first 3 accumulated clauses **including** the opening (the opening plus
at most the first 2 clauses that follow it), then the closing clause;
clauses beyond the third part are computed but silently discarded (a
fixed cap, not a selection). -/
theorem notification_caps_at_three (am : String) (v stress : ℚ) (e : MoodEntry)
    (hist : List MoodEntry) (hr : Nat) (hv : MOOD_OPTIONS_value am = some v) :
    get_contextual_notification (some am) stress e hist hr =
      some (joinSpace ((message_parts v stress e hist hr).take 3) ++
            closing_clause v hist.length) := by
  unfold get_contextual_notification
  simp only [Option.some_bind, hv]
  rw [assembleParts_message]

/-- Witness for the amended C3 at a concrete input with six parts. -/
theorem notification_caps_at_three_witness :
    get_contextual_notification (some "😄") 1 cur5 hist5 13 =
      some (joinSpace ((message_parts 4 1 cur5 hist5 13).take 3) ++
            closing_clause 4 hist5.length) :=
  notification_caps_at_three "😄" 4 1 cur5 hist5 13 rfl

/-- C4 counterexample: a concrete 13-entry history for which the
result of `analyze_mood_patterns` still carries the `comparison` key
(mapped to the empty dict by the literal at lines 393-399) —
contradicting the claim that no `comparison` key is present at all. -/
theorem comparison_key_present_at_13 :
    hist13.length = 13 ∧
    "comparison" ∈ resultKeys (analyze_mood_patterns hist13 cur13) := by
  constructor
  · rfl
  · decide

/-- C4 (amended): for every history of at least 2 entries the analysis
dict always carries the `comparison` key; for fewer than 14 entries it
maps to the empty dict, and only for at least 14 entries is it
populated with the week-over-week data: mean ordinal `average_mood` of
the sorted entries `[-14:-7]` versus `[-7:]`, with `improvement` true
iff the this-week mean strictly exceeds the last-week mean. -/
theorem comparison_population_requires_14 (entries : List MoodEntry)
    (current : MoodEntry) (h2 : 2 ≤ entries.length) :
    ∃ a, analyze_mood_patterns entries current = some a ∧
      "comparison" ∈ resultKeys (analyze_mood_patterns entries current) ∧
      (entries.length < 14 → a.comparison = none) ∧
      (14 ≤ entries.length →
        a.comparison = some
          { last_week_avg := weekAvg (lastWeekWindow (sortedByDate entries))
            this_week_avg := weekAvg (lastN 7 (sortedByDate entries))
            improvement :=
              weekAvg (lastN 7 (sortedByDate entries)) >
                weekAvg (lastWeekWindow (sortedByDate entries)) }) := by
  refine ⟨_, analyze_some entries current h2, ?_, ?_, ?_⟩
  · rw [analyze_some entries current h2]
    simp [resultKeys]
  · intro hlt
    show comparisonOf (sortedByDate entries) = none
    unfold comparisonOf
    rw [if_neg]
    rw [length_sortedByDate]
    omega
  · intro hge
    show comparisonOf (sortedByDate entries) = _
    unfold comparisonOf weekAvg
    rw [if_pos]
    rw [length_sortedByDate]
    omega

/-- Witness for the amended C4 at the concrete 13-entry history: the
key is present and its sub-dict is empty. -/
theorem comparison_population_requires_14_witness :
    ∃ a, analyze_mood_patterns hist13 cur13 = some a ∧
      "comparison" ∈ resultKeys (analyze_mood_patterns hist13 cur13) ∧
      (hist13.length < 14 → a.comparison = none) ∧
      (14 ≤ hist13.length →
        a.comparison = some
          { last_week_avg := weekAvg (lastWeekWindow (sortedByDate hist13))
            this_week_avg := weekAvg (lastN 7 (sortedByDate hist13))
            improvement :=
              weekAvg (lastN 7 (sortedByDate hist13)) >
                weekAvg (lastWeekWindow (sortedByDate hist13)) }) :=
  comparison_population_requires_14 hist13 cur13 (by decide)

/-- C5: for every history with at least 2 entries, the good-mood
streak reported by `analyze_mood_patterns` counts the entries of the
last-7-by-date window from the most recent backward while their
`average_mood` ordinal is at least 3 (Good or Great), stopping at the
first entry below that threshold or with no/unrecognized
`average_mood` (ordinal 0). -/
theorem streak_counts_backward (entries : List MoodEntry) (current : MoodEntry)
    (h2 : 2 ≤ entries.length) :
    (analyze_mood_patterns entries current).map Analysis.streak_info =
      some
        { good_mood_streak :=
            ((recentEntries entries).reverse.takeWhile
              (fun e => 3 ≤ moodValD e.average_mood)).length
          total_recent_entries := (recentEntries entries).length } := by
  rw [analyze_some entries current h2]
  simp only [Option.map_some']
  unfold streakInfoOf
  rw [streakLoop_eq_takeWhile]

/-- Witness for C5: recent moods Good, Great, Sad, Great, Great, Great
(oldest to newest) give a streak of 3. -/
theorem streak_counts_backward_witness :
    (analyze_mood_patterns hist6 emptyEntry).map Analysis.streak_info =
      some { good_mood_streak := 3, total_recent_entries := 6 } := by
  rw [streak_counts_backward hist6 emptyEntry (by decide)]
  decide

theorem avg_const (l : List ℚ) (c : ℚ) (h : ∀ x ∈ l, x = c) (hne : l ≠ []) :
    l.sum / (l.length : ℚ) = c := by
  have hlen0 : l.length ≠ 0 := by
    intro h0
    exact hne (List.length_eq_zero.mp h0)
  have hlen : (l.length : ℚ) ≠ 0 := Nat.cast_ne_zero.mpr hlen0
  rw [sum_const_of_mem l c h, mul_div_cancel_left₀ _ hlen]

/-- C7: whenever the last-7-by-date window ends in three entries
`e1, e2, e3`, the analysis classifies the mood trend by comparing the
`average_mood` ordinal of the window's last entry against the first
entry of the last-3 subwindow with strict inequality (greater =
improving, smaller = declining, equal = stable), and the stress trend
the same way on `stress_level` (higher later = increasing). -/
theorem trend_compares_last3 (entries : List MoodEntry) (current : MoodEntry)
    (pre : List MoodEntry) (e1 e2 e3 : MoodEntry)
    (hrec : recentEntries entries = pre ++ [e1, e2, e3]) :
    ∃ t, (analyze_mood_patterns entries current).bind Analysis.trend_info = some t ∧
      t.mood_trend = trend_label (moodValD e1.average_mood) (moodValD e3.average_mood) ∧
      t.stress_trend = stress_label (e1.stress.getD 3) (e3.stress.getD 3) := by
  have hlen3 : 3 ≤ (recentEntries entries).length := by
    rw [hrec]
    simp only [List.length_append, List.length_cons, List.length_nil]
    omega
  have h2 : 2 ≤ entries.length := by
    have hmin := length_recentEntries entries
    omega
  rw [analyze_some entries current h2]
  simp only [Option.some_bind]
  have hlast : lastN 3 (recentEntries entries) = [e1, e2, e3] := by
    rw [hrec]
    unfold lastN
    have hl : (pre ++ [e1, e2, e3]).length - 3 = pre.length := by
      simp
    rw [hl, List.drop_left]
  show ∃ t, trendInfoOf (recentEntries entries) = some t ∧ _
  unfold trendInfoOf
  rw [if_pos hlen3]
  dsimp only
  rw [hlast]
  exact ⟨_, rfl, rfl, rfl⟩

/-- Witness for C7: entries with ordinal moods 2, 3, 4 over the three
most recent entries give mood trend "improving"; their missing stress
(defaulted to 3 on both compared entries) gives stress trend "stable". -/
theorem trend_compares_last3_witness :
    ∃ t, (analyze_mood_patterns hist3 emptyEntry).bind Analysis.trend_info = some t ∧
      t.mood_trend = "improving" ∧ t.stress_trend = "stable" := by
  obtain ⟨t, h1, h2, h3⟩ :=
    trend_compares_last3 hist3 emptyEntry [] e31 e32 e33 (by decide)
  refine ⟨t, h1, ?_, ?_⟩
  · rw [h2]; decide
  · rw [h3]; decide

/-- C9: an entry lacking a `stress` field contributes the default
stress level 3 wherever stress is read, so a recent window with no
stress data at all has mean recent stress 3, a "stable" stress trend,
and yields neither the `stress_management` strength nor the `stress`
improvement area. -/
theorem missing_stress_defaults_three (entries : List MoodEntry)
    (current : MoodEntry) (h2 : 2 ≤ entries.length)
    (hs : ∀ e ∈ recentEntries entries, e.stress = none) :
    ∃ a, analyze_mood_patterns entries current = some a ∧
      "stress_management" ∉ a.strengths ∧
      "stress" ∉ a.improvement_areas ∧
      ∀ t, a.trend_info = some t →
        t.avg_recent_stress = 3 ∧ t.stress_trend = "stable" := by
  have hne : recentEntries entries ≠ [] := by
    have hmin := length_recentEntries entries
    intro h
    rw [h] at hmin
    simp at hmin
    omega
  have hall : ∀ x ∈ (recentEntries entries).map (fun e => e.stress.getD 3), x = 3 := by
    intro x hx
    simp only [List.mem_map] at hx
    obtain ⟨e, he, rfl⟩ := hx
    rw [hs e he]
    rfl
  have hmapne : (recentEntries entries).map (fun e => e.stress.getD 3) ≠ [] := by
    simpa using hne
  have havg : ((recentEntries entries).map (fun e => e.stress.getD 3)).sum /
      (((recentEntries entries).map (fun e => e.stress.getD 3)).length : ℚ) = 3 :=
    avg_const _ 3 hall hmapne
  have hstress : stressTagsOf (recentEntries entries) = ([], []) := by
    unfold stressTagsOf
    dsimp only
    rw [if_neg hmapne, havg, if_neg (by norm_num), if_neg (by norm_num)]
  refine ⟨_, analyze_some entries current h2, ?_, ?_, ?_⟩
  · show "stress_management" ∉ strengthsOf (recentEntries entries)
    unfold strengthsOf
    rw [hstress]
    rcases sleepTags_fst_cases (recentEntries entries) with h | h <;>
      rcases activityTag_cases (recentEntries entries) with h' | h' <;>
      simp [h, h']
  · show "stress" ∉ improvementAreasOf (recentEntries entries)
    unfold improvementAreasOf
    rw [hstress]
    rcases sleepTags_snd_cases (recentEntries entries) with h | h <;> simp [h]
  · intro t ht
    replace ht : trendInfoOf (recentEntries entries) = some t := ht
    unfold trendInfoOf at ht
    by_cases h3 : 3 ≤ (recentEntries entries).length
    · rw [if_pos h3] at ht
      dsimp only at ht
      obtain rfl := Option.some.inj ht
      have hsub : ∀ e ∈ lastN 3 (recentEntries entries), e.stress = none :=
        fun e he => hs e (mem_lastN e 3 _ he)
      have hall3 : ∀ x ∈ (lastN 3 (recentEntries entries)).map (fun e => e.stress.getD 3),
          x = 3 := by
        intro x hx
        simp only [List.mem_map] at hx
        obtain ⟨e, he, rfl⟩ := hx
        rw [hsub e he]
        rfl
      have hlen3 : (lastN 3 (recentEntries entries)).length = 3 := by
        rw [length_lastN]
        omega
      have hmapne3 : (lastN 3 (recentEntries entries)).map (fun e => e.stress.getD 3) ≠ [] := by
        intro hnil
        have := congrArg List.length hnil
        rw [List.length_map, hlen3] at this
        simp at this
      constructor
      · exact avg_const _ 3 hall3 hmapne3
      · rw [headD_const _ 3 0 hall3 hmapne3, getLastD_const _ 3 0 hall3 hmapne3]
        unfold stress_label
        norm_num
    · rw [if_neg h3] at ht
      exact absurd ht (by simp)

/-- Witness for C9 at a three-entry history with no stress data. -/
theorem missing_stress_defaults_three_witness :
    ∃ a, analyze_mood_patterns hist3 emptyEntry = some a ∧
      "stress_management" ∉ a.strengths ∧
      "stress" ∉ a.improvement_areas ∧
      ∀ t, a.trend_info = some t →
        t.avg_recent_stress = 3 ∧ t.stress_trend = "stable" :=
  missing_stress_defaults_three hist3 emptyEntry (by decide) (by decide)

/-- C10: an entry whose sleep value is 0 or absent carries no sleep
data: it is excluded from the mean used for the `good_sleep` strength
and `sleep` improvement area, the sleep-context clause of the
notification never fires for it, and a recent window of only such
entries produces no sleep-related tag at all. -/
theorem zero_sleep_excluded (entries : List MoodEntry) (current : MoodEntry)
    (mv : ℚ) (h2 : 2 ≤ entries.length)
    (hs : ∀ e ∈ recentEntries entries, e.sleep = none ∨ e.sleep = some 0)
    (hcur : current.sleep = none ∨ current.sleep = some 0) :
    sleepDataOf (recentEntries entries) = [] ∧
    (∀ l, sleepDataOf (current :: l) = sleepDataOf l) ∧
    sleep_context_clause mv current = none ∧
    ∃ a, analyze_mood_patterns entries current = some a ∧
      "good_sleep" ∉ a.strengths ∧ "sleep" ∉ a.improvement_areas := by
  have hfalse : ∀ e : MoodEntry, (e.sleep = none ∨ e.sleep = some 0) →
      truthyQ e.sleep = false := by
    intro e he
    rcases he with h | h <;> rw [h] <;> rfl
  have hdata : sleepDataOf (recentEntries entries) = [] := by
    unfold sleepDataOf
    rw [List.filterMap_eq_nil_iff]
    intro e he
    rw [hfalse e (hs e he)]
    rfl
  have hcons : ∀ l, sleepDataOf (current :: l) = sleepDataOf l := by
    intro l
    unfold sleepDataOf
    rw [List.filterMap_cons, hfalse current hcur]
    rfl
  have hclause : sleep_context_clause mv current = none := by
    rcases hcur with h | h <;> unfold sleep_context_clause <;> rw [h]
    simp
  have hsleepTags : sleepTagsOf (recentEntries entries) = ([], []) := by
    unfold sleepTagsOf
    dsimp only
    rw [if_pos hdata]
  refine ⟨hdata, hcons, hclause, _, analyze_some entries current h2, ?_, ?_⟩
  · show "good_sleep" ∉ strengthsOf (recentEntries entries)
    unfold strengthsOf
    rw [hsleepTags]
    rcases stressTags_fst_cases (recentEntries entries) with h | h <;>
      rcases activityTag_cases (recentEntries entries) with h' | h' <;>
      simp [h, h']
  · show "sleep" ∉ improvementAreasOf (recentEntries entries)
    unfold improvementAreasOf
    rw [hsleepTags]
    rcases stressTags_snd_cases (recentEntries entries) with h | h <;> simp [h]

/-- Witness for C10 at a two-entry history whose sleep values are
absent and 0. -/
theorem zero_sleep_excluded_witness :
    sleepDataOf (recentEntries hist2zero) = [] ∧
    (∀ l, sleepDataOf (cur2zero :: l) = sleepDataOf l) ∧
    sleep_context_clause 3 cur2zero = none ∧
    ∃ a, analyze_mood_patterns hist2zero cur2zero = some a ∧
      "good_sleep" ∉ a.strengths ∧ "sleep" ∉ a.improvement_areas :=
  zero_sleep_excluded hist2zero cur2zero 3 (by decide) (by decide) (by decide)
